import Mathlib

/-!
Verification of the schlussel OAuth 2.0 client library against its
specification.  The repository ships the public C header
`src/include/schlussel.h`; the error enumeration and the signatures come
from that header, while the behaviour of the flow engine, token lifecycle
and store is modelled from the specification (each such definition says so
in its doc comment).
-/

namespace Schlussel

/-- Error codes, transcribed from the `SchlusselError` enum in
`src/include/schlussel.h`, lines 51-74. -/
inductive SchlusselError where
  | SCHLUSSEL_OK
  | SCHLUSSEL_ERROR_INVALID_PARAMETER
  | SCHLUSSEL_ERROR_STORAGE
  | SCHLUSSEL_ERROR_HTTP
  | SCHLUSSEL_ERROR_AUTHORIZATION_DENIED
  | SCHLUSSEL_ERROR_TOKEN_EXPIRED
  | SCHLUSSEL_ERROR_NO_REFRESH_TOKEN
  | SCHLUSSEL_ERROR_INVALID_STATE
  | SCHLUSSEL_ERROR_DEVICE_CODE_EXPIRED
  | SCHLUSSEL_ERROR_JSON
  | SCHLUSSEL_ERROR_IO
  | SCHLUSSEL_ERROR_SERVER
  | SCHLUSSEL_ERROR_CALLBACK_SERVER
  | SCHLUSSEL_ERROR_CONFIGURATION
  | SCHLUSSEL_ERROR_LOCK
  | SCHLUSSEL_ERROR_UNSUPPORTED
  | SCHLUSSEL_ERROR_OUT_OF_MEMORY
  | SCHLUSSEL_ERROR_CONNECTION_FAILED
  | SCHLUSSEL_ERROR_TIMEOUT
  | SCHLUSSEL_ERROR_AUTHORIZATION_PENDING
  | SCHLUSSEL_ERROR_SLOW_DOWN
  | SCHLUSSEL_ERROR_UNKNOWN
  deriving DecidableEq, Repr, Fintype

open SchlusselError

/-- Numeric value of each enumerator, matching the `= n` assignments in the
header. -/
def errorCode : SchlusselError → Nat
  | SCHLUSSEL_OK => 0
  | SCHLUSSEL_ERROR_INVALID_PARAMETER => 1
  | SCHLUSSEL_ERROR_STORAGE => 2
  | SCHLUSSEL_ERROR_HTTP => 3
  | SCHLUSSEL_ERROR_AUTHORIZATION_DENIED => 4
  | SCHLUSSEL_ERROR_TOKEN_EXPIRED => 5
  | SCHLUSSEL_ERROR_NO_REFRESH_TOKEN => 6
  | SCHLUSSEL_ERROR_INVALID_STATE => 7
  | SCHLUSSEL_ERROR_DEVICE_CODE_EXPIRED => 8
  | SCHLUSSEL_ERROR_JSON => 9
  | SCHLUSSEL_ERROR_IO => 10
  | SCHLUSSEL_ERROR_SERVER => 11
  | SCHLUSSEL_ERROR_CALLBACK_SERVER => 12
  | SCHLUSSEL_ERROR_CONFIGURATION => 13
  | SCHLUSSEL_ERROR_LOCK => 14
  | SCHLUSSEL_ERROR_UNSUPPORTED => 15
  | SCHLUSSEL_ERROR_OUT_OF_MEMORY => 16
  | SCHLUSSEL_ERROR_CONNECTION_FAILED => 17
  | SCHLUSSEL_ERROR_TIMEOUT => 18
  | SCHLUSSEL_ERROR_AUTHORIZATION_PENDING => 19
  | SCHLUSSEL_ERROR_SLOW_DOWN => 20
  | SCHLUSSEL_ERROR_UNKNOWN => 99

/-- The error kinds the header enum defines (every enumerator other than
`SCHLUSSEL_OK`), in source order. -/
def header_error_kinds : List SchlusselError :=
  [ SCHLUSSEL_ERROR_INVALID_PARAMETER, SCHLUSSEL_ERROR_STORAGE,
    SCHLUSSEL_ERROR_HTTP, SCHLUSSEL_ERROR_AUTHORIZATION_DENIED,
    SCHLUSSEL_ERROR_TOKEN_EXPIRED, SCHLUSSEL_ERROR_NO_REFRESH_TOKEN,
    SCHLUSSEL_ERROR_INVALID_STATE, SCHLUSSEL_ERROR_DEVICE_CODE_EXPIRED,
    SCHLUSSEL_ERROR_JSON, SCHLUSSEL_ERROR_IO, SCHLUSSEL_ERROR_SERVER,
    SCHLUSSEL_ERROR_CALLBACK_SERVER, SCHLUSSEL_ERROR_CONFIGURATION,
    SCHLUSSEL_ERROR_LOCK, SCHLUSSEL_ERROR_UNSUPPORTED,
    SCHLUSSEL_ERROR_OUT_OF_MEMORY, SCHLUSSEL_ERROR_CONNECTION_FAILED,
    SCHLUSSEL_ERROR_TIMEOUT, SCHLUSSEL_ERROR_AUTHORIZATION_PENDING,
    SCHLUSSEL_ERROR_SLOW_DOWN, SCHLUSSEL_ERROR_UNKNOWN ]

/-- The closed set of error kinds as enumerated by the specification (§7).
This is the spec side of a refinement claim, to be compared with
`header_error_kinds` which comes from the source enum. -/
def spec_error_kinds : List SchlusselError :=
  [ SCHLUSSEL_ERROR_INVALID_PARAMETER, SCHLUSSEL_ERROR_STORAGE,
    SCHLUSSEL_ERROR_HTTP, SCHLUSSEL_ERROR_AUTHORIZATION_DENIED,
    SCHLUSSEL_ERROR_TOKEN_EXPIRED, SCHLUSSEL_ERROR_NO_REFRESH_TOKEN,
    SCHLUSSEL_ERROR_INVALID_STATE, SCHLUSSEL_ERROR_DEVICE_CODE_EXPIRED,
    SCHLUSSEL_ERROR_JSON, SCHLUSSEL_ERROR_IO, SCHLUSSEL_ERROR_SERVER,
    SCHLUSSEL_ERROR_CALLBACK_SERVER, SCHLUSSEL_ERROR_CONFIGURATION,
    SCHLUSSEL_ERROR_LOCK, SCHLUSSEL_ERROR_UNSUPPORTED,
    SCHLUSSEL_ERROR_CONNECTION_FAILED, SCHLUSSEL_ERROR_TIMEOUT,
    SCHLUSSEL_ERROR_AUTHORIZATION_PENDING, SCHLUSSEL_ERROR_SLOW_DOWN,
    SCHLUSSEL_ERROR_UNKNOWN ]

/-- Modelled from the spec: the TokenRecord data model (§3).  The
implementation behind the opaque `SchlusselToken` handle is not under
`src/`; the header only declares accessors.  `expires_at` is an optional
absolute Unix-epoch timestamp in seconds. -/
structure TokenRecord where
  access_token : String
  token_type : String
  refresh_token : Option String
  scope : Option String
  expires_at : Option Int
  id_token : Option String
  deriving DecidableEq, Repr

/-- Expiry skew in seconds (§4.2 of the spec). -/
def expiry_skew : Int := 30

/-- Modelled from the spec: `is_expired(now)` (§4.2); the body of
`schlussel_token_is_expired` is not under `src/`.  True iff `expires_at`
is set and `now ≥ expires_at - skew` with `skew = 30` seconds; an unset
`expires_at` means the token never expires from the library's view. -/
def schlussel_token_is_expired (t : TokenRecord) (now : Int) : Bool :=
  match t.expires_at with
  | none => false
  | some exp => decide (now ≥ exp - expiry_skew)

/-- A JSON scalar as used by the persisted token layout (§6 of the spec:
string fields plus the integer `expires_at`). -/
inductive JsonVal where
  | str (s : String)
  | num (n : Int)
  deriving DecidableEq, Repr

/-- Modelled from the spec: the persisted-state layout (§6) — the
TokenRecord serialized as a JSON object holding `access_token`,
`token_type`, and optionally `refresh_token`, `scope`, `expires_at`,
`id_token`; only defined fields are written. -/
def token_serialize (t : TokenRecord) : List (String × JsonVal) :=
  [("access_token", JsonVal.str t.access_token),
   ("token_type", JsonVal.str t.token_type)]
  ++ (match t.refresh_token with
      | some r => [("refresh_token", JsonVal.str r)]
      | none => [])
  ++ (match t.scope with
      | some s => [("scope", JsonVal.str s)]
      | none => [])
  ++ (match t.expires_at with
      | some e => [("expires_at", JsonVal.num e)]
      | none => [])
  ++ (match t.id_token with
      | some i => [("id_token", JsonVal.str i)]
      | none => [])

/-- Read a string field from a serialized object. -/
def jsonStr (fields : List (String × JsonVal)) (k : String) : Option String :=
  match fields.lookup k with
  | some (JsonVal.str s) => some s
  | _ => none

/-- Read an integer field from a serialized object. -/
def jsonNum (fields : List (String × JsonVal)) (k : String) : Option Int :=
  match fields.lookup k with
  | some (JsonVal.num n) => some n
  | _ => none

/-- Modelled from the spec: decoding of the persisted token layout (§6).
`access_token` and `token_type` are required, the rest optional. -/
def token_deserialize (fields : List (String × JsonVal)) : Option TokenRecord :=
  match jsonStr fields "access_token", jsonStr fields "token_type" with
  | some a, some ty =>
    some { access_token := a
           token_type := ty
           refresh_token := jsonStr fields "refresh_token"
           scope := jsonStr fields "scope"
           expires_at := jsonNum fields "expires_at"
           id_token := jsonStr fields "id_token" }
  | _, _ => none

/-- A token store keyed by the user-supplied key (the `app_name` scoping of
§3 is fixed by the client instance), holding serialized records per the
persisted-state layout. -/
def TokenStore := String → Option (List (String × JsonVal))

/-- Modelled from the spec: `schlussel_save_token` (header lines 198-210;
body not under `src/`).  Serializes the record and writes it at `key`
(§4.3 `put`). -/
def schlussel_save_token (store : TokenStore) (key : String)
    (t : TokenRecord) : TokenStore :=
  fun k => if k = key then some (token_serialize t) else store k

/-- Modelled from the spec: `schlussel_get_token` (header lines 212-222;
body not under `src/`).  Reads the record stored at `key` and decodes it
(§4.3 `get`). -/
def schlussel_get_token (store : TokenStore) (key : String) :
    Option TokenRecord :=
  (store key).bind token_deserialize

/-- A token-endpoint JSON success response (§4.5 step 4, §4.7 of the
spec): `expires_in` is relative, turned into `expires_at = now +
expires_in` on receipt. -/
structure TokenResponse where
  access_token : String
  token_type : String
  refresh_token : Option String
  scope : Option String
  expires_in : Option Int
  id_token : Option String
  deriving DecidableEq, Repr

/-- Modelled from the spec: building a TokenRecord from a token-endpoint
response (§3, §4.5 step 4): `expires_at = now_on_receipt + expires_in`
when the server supplied `expires_in`, unset otherwise. -/
def token_record_from_response (resp : TokenResponse) (now : Int) :
    TokenRecord :=
  { access_token := resp.access_token
    token_type := resp.token_type
    refresh_token := resp.refresh_token
    scope := resp.scope
    expires_at := resp.expires_in.map (fun e => now + e)
    id_token := resp.id_token }

/-- Ephemeral PKCE session (§3 of the spec). -/
structure PkceSession where
  code_verifier : String
  code_challenge : String
  state : String
  deriving DecidableEq, Repr

/-- What the one-shot loopback callback server delivers to the waiting
flow (§4.4 of the spec): either `(code, state)` or an OAuth error. -/
inductive CallbackOutcome where
  | success (code : String) (state : String)
  | oauth_error (error : String) (description : String)
  deriving DecidableEq, Repr

/-- Modelled from the spec: mapping of authorization-server OAuth error
strings (§4.5 step 5): `access_denied` maps to AUTHORIZATION_DENIED and
every other OAuth error to SERVER. -/
def oauth_error_kind (e : String) : SchlusselError :=
  if e = "access_denied" then SCHLUSSEL_ERROR_AUTHORIZATION_DENIED
  else SCHLUSSEL_ERROR_SERVER

/-- Modelled from the spec: the tail of `schlussel_authorize` (header
lines 183-192; body not under `src/`) after the callback server delivered
its outcome — the state check (§4.5 step 3) followed by the EXCHANGE step
(§4.5 step 4).  `tokenEndpoint code verifier` stands for the POST to the
token endpoint; the second component of the result counts the requests
the flow issued to it. -/
def schlussel_authorize (sess : PkceSession) (cb : CallbackOutcome)
    (tokenEndpoint : String → String → Except SchlusselError TokenResponse)
    (now : Int) : Except SchlusselError TokenRecord × Nat :=
  match cb with
  | CallbackOutcome.oauth_error e _ => (Except.error (oauth_error_kind e), 0)
  | CallbackOutcome.success code st =>
    if st = sess.state then
      match tokenEndpoint code sess.code_verifier with
      | Except.ok resp => (Except.ok (token_record_from_response resp now), 1)
      | Except.error e => (Except.error e, 1)
    else
      (Except.error SCHLUSSEL_ERROR_INVALID_STATE, 0)

/-- One token-endpoint answer inside the device-flow poll loop (§4.6 step
3 of the spec). -/
inductive DevicePollResponse where
  | authorization_pending
  | slow_down
  | access_denied
  | expired_token
  | success (resp : TokenResponse)
  deriving DecidableEq, Repr

/-- Modelled from the spec: the poll loop of `schlussel_authorize_device`
(header lines 170-181; body not under `src/`), per §4.6 step 3.  The
first argument is the current polling interval in seconds, the list the
successive token-endpoint answers.  The first component records every
sleep performed (each of the current interval, right before the poll);
`slow_down` raises the interval by 5 seconds for the rest of the session,
`authorization_pending` keeps it.  An exhausted answer list stands for the
caller-side deadline (§4.6 step 4, TIMEOUT). -/
def device_poll_loop (now : Int) :
    Nat → List DevicePollResponse →
    List Nat × Except SchlusselError TokenRecord
  | _, [] => ([], Except.error SCHLUSSEL_ERROR_TIMEOUT)
  | interval, r :: rest =>
    match r with
    | DevicePollResponse.authorization_pending =>
      let next := device_poll_loop now interval rest
      (interval :: next.1, next.2)
    | DevicePollResponse.slow_down =>
      let next := device_poll_loop now (interval + 5) rest
      (interval :: next.1, next.2)
    | DevicePollResponse.access_denied =>
      ([interval], Except.error SCHLUSSEL_ERROR_AUTHORIZATION_DENIED)
    | DevicePollResponse.expired_token =>
      ([interval], Except.error SCHLUSSEL_ERROR_DEVICE_CODE_EXPIRED)
    | DevicePollResponse.success resp =>
      ([interval], Except.ok (token_record_from_response resp now))

/-- Per-thread last-error information: `{ code, message }` (§6 of the
spec). -/
structure ErrInfo where
  code : SchlusselError
  message : String
  deriving DecidableEq, Repr

/-- Modelled from the spec: events observable on one thread that affect
the last-error slot (§6, §9): an operation failing, an operation
succeeding, or an explicit `schlussel_clear_last_error` call. -/
inductive ThreadEvent where
  | op_failure (e : ErrInfo)
  | op_success
  | clear_last_error
  deriving DecidableEq, Repr

/-- Modelled from the spec: how one event updates the per-thread slot — a
failure stores its `{ code, message }`, a successful operation or an
explicit clear empties it. -/
def last_error_step (_slot : Option ErrInfo) : ThreadEvent → Option ErrInfo
  | ThreadEvent.op_failure e => some e
  | ThreadEvent.op_success => none
  | ThreadEvent.clear_last_error => none

/-- The slot contents after a sequence of events on one thread, starting
from the empty slot. -/
def last_error_after (events : List ThreadEvent) : Option ErrInfo :=
  events.foldl last_error_step none

/-- Modelled from the spec: `schlussel_last_error_code` (header lines
322-327) — the numeric code of the slot, 0 when the slot is empty. -/
def schlussel_last_error_code (slot : Option ErrInfo) : Nat :=
  match slot with
  | none => 0
  | some e => errorCode e.code

/-- Modelled from the spec: `schlussel_last_error_message` (header lines
329-335) — the stored message, NULL (`none`) when the slot is empty. -/
def schlussel_last_error_message (slot : Option ErrInfo) : Option String :=
  slot.map (fun e => e.message)

/-- Modelled from the spec: `schlussel_clear_last_error` (header lines
337-340) — empties the slot. -/
def schlussel_clear_last_error (_ : Option ErrInfo) : Option ErrInfo :=
  none

/-- Modelled from the spec: `schlussel_refresh_token` (header lines
236-246; body not under `src/`), per §4.7: POST the refresh grant; if the
response omits `refresh_token`, the flow engine substitutes the supplied
one into the returned record before returning. -/
def schlussel_refresh_token (supplied : String) (resp : TokenResponse)
    (now : Int) : TokenRecord :=
  let t := token_record_from_response resp now
  match resp.refresh_token with
  | some _ => t
  | none => { t with refresh_token := some supplied }

/-- The set of live handles an application holds, abstracted as the list
of their identities. -/
def Heap := List Nat

/-- Modelled from the spec: `schlussel_client_free` (header lines
160-165) — frees the handle; "(may be NULL)" per the header, a NULL
(`none`) argument is a no-op. -/
def schlussel_client_free (h : Heap) (p : Option Nat) : Heap :=
  match p with
  | none => h
  | some x => List.erase h x

/-- Modelled from the spec: `schlussel_token_free` (header lines 304-309)
— frees the handle; a NULL argument is a no-op. -/
def schlussel_token_free (h : Heap) (p : Option Nat) : Heap :=
  match p with
  | none => h
  | some x => List.erase h x

/-- Modelled from the spec: `schlussel_string_free` (header lines
315-320) — frees the string; a NULL argument is a no-op. -/
def schlussel_string_free (h : Heap) (p : Option Nat) : Heap :=
  match p with
  | none => h
  | some x => List.erase h x

/-- Modelled from the spec: `schlussel_registration_free` (header lines
399-404) — frees the handle; a NULL argument is a no-op. -/
def schlussel_registration_free (h : Heap) (p : Option Nat) : Heap :=
  match p with
  | none => h
  | some x => List.erase h x

/-- Modelled from the spec: `schlussel_registration_response_free` (header
lines 480-485) — frees the handle; a NULL argument is a no-op. -/
def schlussel_registration_response_free (h : Heap) (p : Option Nat) :
    Heap :=
  match p with
  | none => h
  | some x => List.erase h x

/-- Truncation to a 32-bit word. -/
def w32 (n : Nat) : Nat := n % 4294967296

/-- 32-bit right rotation. -/
def rotr32 (x n : Nat) : Nat := w32 ((x >>> n) ||| (x <<< (32 - n)))

/-- SHA-256 Ch function (FIPS 180-4 §4.1.2). -/
def shaCh (x y z : Nat) : Nat := (x &&& y) ^^^ ((x ^^^ 4294967295) &&& z)

/-- SHA-256 Maj function. -/
def shaMaj (x y z : Nat) : Nat := (x &&& y) ^^^ (x &&& z) ^^^ (y &&& z)

/-- SHA-256 Σ0. -/
def bsig0 (x : Nat) : Nat := rotr32 x 2 ^^^ rotr32 x 13 ^^^ rotr32 x 22

/-- SHA-256 Σ1. -/
def bsig1 (x : Nat) : Nat := rotr32 x 6 ^^^ rotr32 x 11 ^^^ rotr32 x 25

/-- SHA-256 σ0. -/
def ssig0 (x : Nat) : Nat := rotr32 x 7 ^^^ rotr32 x 18 ^^^ (x >>> 3)

/-- SHA-256 σ1. -/
def ssig1 (x : Nat) : Nat := rotr32 x 17 ^^^ rotr32 x 19 ^^^ (x >>> 10)

/-- SHA-256 round constants (FIPS 180-4 §4.2.2). -/
def shaK : List Nat :=
  [1116352408, 1899447441, 3049323471, 3921009573, 961987163,
   1508970993, 2453635748, 2870763221, 3624381080, 310598401,
   607225278, 1426881987, 1925078388, 2162078206, 2614888103,
   3248222580, 3835390401, 4022224774, 264347078, 604807628,
   770255983, 1249150122, 1555081692, 1996064986, 2554220882,
   2821834349, 2952996808, 3210313671, 3336571891, 3584528711,
   113926993, 338241895, 666307205, 773529912, 1294757372,
   1396182291, 1695183700, 1986661051, 2177026350, 2456956037,
   2730485921, 2820302411, 3259730800, 3345764771, 3516065817,
   3600352804, 4094571909, 275423344, 430227734, 506948616,
   659060556, 883997877, 958139571, 1322822218, 1537002063,
   1747873779, 1955562222, 2024104815, 2227730452, 2361852424,
   2428436474, 2756734187, 3204031479, 3329325298]

/-- SHA-256 initial hash value. -/
def shaH0 : List Nat :=
  [1779033703, 3144134277, 1013904242, 2773480762,
   1359893119, 2600822924, 528734635, 1541459225]

/-- Padding of a byte message per FIPS 180-4 §5.1.1: append `0x80`, then
zeros up to 56 mod 64, then the bit length as 8 big-endian bytes. -/
def shaPad (msg : List Nat) : List Nat :=
  let len := msg.length
  let zeros := (119 - len % 64) % 64
  let bitlen := len * 8
  msg ++ [0x80] ++ List.replicate zeros 0 ++
    (List.range 8).map (fun i => bitlen >>> ((7 - i) * 8) % 256)

/-- Split a byte list into 64-byte blocks (fuel-driven helper; the fuel
bounds the number of blocks). -/
def shaBlocksAux : Nat → List Nat → List (List Nat)
  | 0, _ => []
  | _ + 1, [] => []
  | fuel + 1, l => l.take 64 :: shaBlocksAux fuel (l.drop 64)

/-- Split a byte list into 64-byte blocks. -/
def shaBlocks (l : List Nat) : List (List Nat) :=
  shaBlocksAux l.length l

/-- Big-endian 32-bit words from bytes. -/
def bytesToWords : List Nat → List Nat
  | b0 :: b1 :: b2 :: b3 :: rest =>
    (b0 * 16777216 + b1 * 65536 + b2 * 256 + b3) :: bytesToWords rest
  | _ => []

/-- Extension steps for the message schedule: perform `n` more
appends of `σ1(w[t-2]) + w[t-7] + σ0(w[t-15]) + w[t-16]` mod 2^32. -/
def shaExtendAux : Nat → Array Nat → Array Nat
  | 0, w => w
  | n + 1, w =>
    shaExtendAux n (w.push (w32 (ssig1 (w.getD (w.size - 2) 0) +
      w.getD (w.size - 7) 0 + ssig0 (w.getD (w.size - 15) 0) +
      w.getD (w.size - 16) 0)))

/-- Extend the 16 message words to the 64-entry schedule (FIPS 180-4
§6.2.2 step 1). -/
def shaExtend (w : Array Nat) : Array Nat :=
  shaExtendAux (64 - w.size) w

/-- Working state of the SHA-256 compression function. -/
structure ShaState where
  a : Nat
  b : Nat
  c : Nat
  d : Nat
  e : Nat
  f : Nat
  g : Nat
  h : Nat
  deriving Repr

/-- One compression round (FIPS 180-4 §6.2.2 step 3). -/
def shaRound (st : ShaState) (k w : Nat) : ShaState :=
  let t1 := w32 (st.h + bsig1 st.e + shaCh st.e st.f st.g + k + w)
  let t2 := w32 (bsig0 st.a + shaMaj st.a st.b st.c)
  { a := w32 (t1 + t2), b := st.a, c := st.b, d := st.c,
    e := w32 (st.d + t1), f := st.e, g := st.f, h := st.g }

/-- Process one 64-byte block against the running hash (8 words). -/
def shaProcessBlock (hs : List Nat) (block : List Nat) : List Nat :=
  let ws := (shaExtend (Array.mk (bytesToWords block))).toList
  let st0 : ShaState :=
    { a := hs.getD 0 0, b := hs.getD 1 0, c := hs.getD 2 0,
      d := hs.getD 3 0, e := hs.getD 4 0, f := hs.getD 5 0,
      g := hs.getD 6 0, h := hs.getD 7 0 }
  let st := (shaK.zip ws).foldl (fun s kw => shaRound s kw.1 kw.2) st0
  [w32 (hs.getD 0 0 + st.a), w32 (hs.getD 1 0 + st.b),
   w32 (hs.getD 2 0 + st.c), w32 (hs.getD 3 0 + st.d),
   w32 (hs.getD 4 0 + st.e), w32 (hs.getD 5 0 + st.f),
   w32 (hs.getD 6 0 + st.g), w32 (hs.getD 7 0 + st.h)]

/-- A 32-bit word as 4 big-endian bytes. -/
def wordToBytes (w : Nat) : List Nat :=
  [w / 16777216 % 256, w / 65536 % 256, w / 256 % 256, w % 256]

/-- SHA-256 of a byte message, as 32 bytes (FIPS 180-4 §6.2). -/
def sha256 (msg : List Nat) : List Nat :=
  ((shaBlocks (shaPad msg)).foldl shaProcessBlock shaH0).flatMap
    wordToBytes

/-- The base64url alphabet (RFC 4648 §5). -/
def b64urlChar (n : Nat) : Char :=
  "ABCDEFGHIJKLMNOPQRSTUVWXYZabcdefghijklmnopqrstuvwxyz0123456789-_".toList.getD n 'A'

/-- base64url encoding without padding of a byte list (RFC 4648 §5, no
`=` padding), as a character list. -/
def base64url_nopad_chars : List Nat → List Char
  | [] => []
  | [b1] =>
    [b64urlChar (b1 >>> 2), b64urlChar ((b1 &&& 3) <<< 4)]
  | [b1, b2] =>
    [b64urlChar (b1 >>> 2), b64urlChar (((b1 &&& 3) <<< 4) ||| (b2 >>> 4)),
     b64urlChar ((b2 &&& 15) <<< 2)]
  | b1 :: b2 :: b3 :: rest =>
    b64urlChar (b1 >>> 2) ::
    b64urlChar (((b1 &&& 3) <<< 4) ||| (b2 >>> 4)) ::
    b64urlChar (((b2 &&& 15) <<< 2) ||| (b3 >>> 6)) ::
    b64urlChar (b3 &&& 63) ::
    base64url_nopad_chars rest

/-- base64url-without-padding of a byte list, as a string. -/
def base64url_nopad (bs : List Nat) : String :=
  String.mk (base64url_nopad_chars bs)

/-- The bytes of an ASCII string. -/
def strBytes (s : String) : List Nat := s.data.map Char.toNat

/-- Modelled from the spec: the PKCE challenge derivation (§4.1) —
`challenge(verifier) = base64url_nopad(sha256(verifier_bytes))`; the
crypto primitive's implementation is not under `src/`. -/
def challenge (verifier : String) : String :=
  base64url_nopad (sha256 (strBytes verifier))

/-- Modelled from the spec: `schlussel_authorize_device` as observed at
the API boundary (header lines 170-181): run the poll loop; on success
the per-thread last-error slot is cleared (the operation succeeded), on
failure it holds the failure's code and a message. -/
def schlussel_authorize_device (now : Int) (interval : Nat)
    (responses : List DevicePollResponse) :
    Except SchlusselError TokenRecord × Option ErrInfo :=
  match (device_poll_loop now interval responses).2 with
  | Except.ok t => (Except.ok t, none)
  | Except.error e =>
    (Except.error e, some { code := e, message := "device authorization failed" })

/-- A concrete token-endpoint success response, used to instantiate
universally quantified statements. -/
def sampleResponse : TokenResponse :=
  { access_token := "A", token_type := "Bearer", refresh_token := none,
    scope := none, expires_in := none, id_token := none }

/-- A serialized TokenRecord decodes back to the record it came from:
every defined field survives the persisted-state layout. -/
theorem token_serialize_roundtrip (t : TokenRecord) :
    token_deserialize (token_serialize t) = some t := by
  obtain ⟨a, ty, rt, sc, ex, idt⟩ := t
  cases rt <;> cases sc <;> cases ex <;> cases idt <;> rfl

/-- Head of the sleep log: the first sleep of the poll loop is the
current interval. -/
theorem device_poll_loop_sleeps_head (now : Int) (i v : Nat)
    (rs : List DevicePollResponse)
    (h : (device_poll_loop now i rs).1[0]? = some v) : v = i := by
  cases rs with
  | nil => simp [device_poll_loop] at h
  | cons r rest =>
    cases r <;> simp [device_poll_loop] at h <;> omega

/-- After a `slow_down` answer at poll `n`, the sleep before poll `n+1`
is exactly the sleep before poll `n` plus 5 seconds. -/
theorem device_poll_loop_slow_down_next (now : Int) :
    ∀ (rs : List DevicePollResponse) (i n u v : Nat),
    rs[n]? = some DevicePollResponse.slow_down →
    (device_poll_loop now i rs).1[n]? = some u →
    (device_poll_loop now i rs).1[n + 1]? = some v →
    v = u + 5 := by
  intro rs
  induction rs with
  | nil =>
    intro i n u v hr _ _
    simp at hr
  | cons r rest ih =>
    intro i n u v hr hu hv
    cases n with
    | zero =>
      simp at hr
      subst hr
      simp [device_poll_loop] at hu hv
      have hvi := device_poll_loop_sleeps_head now (i + 5) v rest hv
      omega
    | succ n =>
      simp at hr
      cases r with
      | authorization_pending =>
        simp [device_poll_loop] at hu hv
        exact ih i n u v hr hu hv
      | slow_down =>
        simp [device_poll_loop] at hu hv
        exact ih (i + 5) n u v hr hu hv
      | access_denied => simp [device_poll_loop] at hu
      | expired_token => simp [device_poll_loop] at hu
      | success resp => simp [device_poll_loop] at hu

/-- The poll loop never terminates with the two internal error kinds. -/
theorem device_poll_loop_no_internal (now : Int) :
    ∀ (rs : List DevicePollResponse) (i : Nat),
    (device_poll_loop now i rs).2 ≠
      Except.error SCHLUSSEL_ERROR_AUTHORIZATION_PENDING ∧
    (device_poll_loop now i rs).2 ≠ Except.error SCHLUSSEL_ERROR_SLOW_DOWN := by
  intro rs
  induction rs with
  | nil =>
    intro i
    simp [device_poll_loop]
  | cons r rest ih =>
    intro i
    cases r with
    | authorization_pending =>
      simpa [device_poll_loop] using ih i
    | slow_down =>
      simpa [device_poll_loop] using ih (i + 5)
    | access_denied => simp [device_poll_loop]
    | expired_token => simp [device_poll_loop]
    | success resp => simp [device_poll_loop]

/-- C1: in the Authorization-Code-with-PKCE flow, whenever the callback's
returned state differs from the session state, the flow fails with
INVALID_STATE and issues zero requests to the token endpoint — the state
check strictly precedes any use of the authorization code. -/
theorem authorize_rejects_state_mismatch (sess : PkceSession)
    (code st : String)
    (tokenEndpoint : String → String → Except SchlusselError TokenResponse)
    (now : Int) (h : st ≠ sess.state) :
    schlussel_authorize sess (CallbackOutcome.success code st) tokenEndpoint
      now = (Except.error SCHLUSSEL_ERROR_INVALID_STATE, 0) := by
  simp [schlussel_authorize, h]

/-- Witness for C1: a concrete callback carrying state `evil` against a
session whose state is `s` fails with INVALID_STATE and never reaches the
token endpoint. -/
theorem authorize_rejects_state_mismatch_witness :
    ("evil" ≠ (PkceSession.mk "v" "c" "s").state) ∧
    schlussel_authorize (PkceSession.mk "v" "c" "s")
      (CallbackOutcome.success "XYZ" "evil")
      (fun _ _ => Except.error SCHLUSSEL_ERROR_UNKNOWN) 0
      = (Except.error SCHLUSSEL_ERROR_INVALID_STATE, 0) :=
  ⟨by decide,
   authorize_rejects_state_mismatch (PkceSession.mk "v" "c" "s") "XYZ" "evil"
     (fun _ _ => Except.error SCHLUSSEL_ERROR_UNKNOWN) 0 (by decide)⟩

/-- C2: `is_expired(now)` is true iff `expires_at` is set and
`now ≥ expires_at - 30`; with `expires_at = T`, at `T - 31` the token is
not yet expired and at `T - 29` it is; with `expires_at` unset it is
never expired. -/
theorem token_is_expired_spec (t : TokenRecord) (now T : Int) :
    (schlussel_token_is_expired t now = true ↔
      ∃ exp, t.expires_at = some exp ∧ now ≥ exp - 30) ∧
    schlussel_token_is_expired { t with expires_at := some T } (T - 31)
      = false ∧
    schlussel_token_is_expired { t with expires_at := some T } (T - 29)
      = true ∧
    schlussel_token_is_expired { t with expires_at := none } now = false := by
  refine ⟨?_, ?_, ?_, ?_⟩
  · cases h : t.expires_at with
    | none => simp [schlussel_token_is_expired, h]
    | some exp => simp [schlussel_token_is_expired, h, expiry_skew]
  · simp only [schlussel_token_is_expired, expiry_skew,
      decide_eq_false_iff_not, not_le, ge_iff_le]
    omega
  · simp only [schlussel_token_is_expired, expiry_skew,
      decide_eq_true_eq, ge_iff_le]
    omega
  · rfl

/-- C3: writing a TokenRecord to the token store at a key and reading it
back at the same key yields the very same record on all defined fields. -/
theorem save_get_roundtrip (store : TokenStore) (key : String)
    (t : TokenRecord) :
    schlussel_get_token (schlussel_save_token store key t) key = some t := by
  simp [schlussel_get_token, schlussel_save_token]
  exact token_serialize_roundtrip t

/-- C4: in the device poll loop every `slow_down` answer raises the
polling interval by 5 seconds for the rest of the session, so the sleep
after it is at least the previous sleep plus 5; with initial interval 5
and answers slow_down, authorization_pending, success the sleeps are
5, 10, 10. -/
theorem device_slow_down_backoff (now : Int) (rs : List DevicePollResponse)
    (i n u v : Nat) (resp : TokenResponse)
    (hr : rs[n]? = some DevicePollResponse.slow_down)
    (hu : (device_poll_loop now i rs).1[n]? = some u)
    (hv : (device_poll_loop now i rs).1[n + 1]? = some v) :
    v ≥ u + 5 ∧
    device_poll_loop now 5
      [DevicePollResponse.slow_down,
       DevicePollResponse.authorization_pending,
       DevicePollResponse.success resp]
      = ([5, 10, 10], Except.ok (token_record_from_response resp now)) := by
  refine ⟨?_, rfl⟩
  have := device_poll_loop_slow_down_next now rs i n u v hr hu hv
  omega

/-- Witness for C4: the concrete session with answers slow_down,
authorization_pending, success and initial interval 5 sleeps 5 then 10
then 10, and 10 ≥ 5 + 5. -/
theorem device_slow_down_backoff_witness :
    ([DevicePollResponse.slow_down, DevicePollResponse.authorization_pending,
      DevicePollResponse.success sampleResponse][0]?
        = some DevicePollResponse.slow_down) ∧
    ((device_poll_loop 0 5
      [DevicePollResponse.slow_down, DevicePollResponse.authorization_pending,
       DevicePollResponse.success sampleResponse]).1[0]? = some 5) ∧
    ((device_poll_loop 0 5
      [DevicePollResponse.slow_down, DevicePollResponse.authorization_pending,
       DevicePollResponse.success sampleResponse]).1[1]? = some 10) ∧
    (10 ≥ 5 + 5 ∧
     device_poll_loop 0 5
       [DevicePollResponse.slow_down, DevicePollResponse.authorization_pending,
        DevicePollResponse.success sampleResponse]
       = ([5, 10, 10],
          Except.ok (token_record_from_response sampleResponse 0))) :=
  ⟨rfl, rfl, rfl,
   device_slow_down_backoff 0
     [DevicePollResponse.slow_down, DevicePollResponse.authorization_pending,
      DevicePollResponse.success sampleResponse]
     5 0 5 10 sampleResponse rfl rfl rfl⟩

/-- C5: when the token-endpoint response to a refresh omits
`refresh_token`, the returned TokenRecord carries the refresh token the
caller supplied — the flow engine substitutes it before returning. -/
theorem refresh_preserves_refresh_token (supplied : String)
    (resp : TokenResponse) (now : Int) (h : resp.refresh_token = none) :
    (schlussel_refresh_token supplied resp now).refresh_token
      = some supplied := by
  simp [schlussel_refresh_token, h]

/-- Witness for C5: refreshing with supplied token `R1` against a
response with no `refresh_token` returns a record whose refresh token is
`R1`. -/
theorem refresh_preserves_refresh_token_witness :
    (TokenResponse.refresh_token
      { access_token := "A2", token_type := "Bearer", refresh_token := none,
        scope := none, expires_in := some 3600, id_token := none } = none) ∧
    (schlussel_refresh_token "R1"
      { access_token := "A2", token_type := "Bearer", refresh_token := none,
        scope := none, expires_in := some 3600, id_token := none }
      1000).refresh_token = some "R1" :=
  ⟨rfl,
   refresh_preserves_refresh_token "R1"
     { access_token := "A2", token_type := "Bearer", refresh_token := none,
       scope := none, expires_in := some 3600, id_token := none }
     1000 rfl⟩

/-- C6 counterexample: the header enum defines the error kind
SCHLUSSEL_ERROR_OUT_OF_MEMORY (value 16), which is not a member of the
closed set named by the specification — so the spec's set is not exactly
the set of kinds the code defines. -/
theorem error_kinds_counterexample :
    SCHLUSSEL_ERROR_OUT_OF_MEMORY ∈ header_error_kinds ∧
    SCHLUSSEL_ERROR_OUT_OF_MEMORY ∉ spec_error_kinds := by decide

/-- C6 (amended): the error kinds the enum defines are exactly the
spec's closed set plus OUT_OF_MEMORY; equivalently, every enum value
other than SCHLUSSEL_OK is one of these and no other kind exists. -/
theorem error_kinds_closed_set :
    ∀ e : SchlusselError,
    (e ∈ header_error_kinds ↔
      e ∈ spec_error_kinds ∨ e = SCHLUSSEL_ERROR_OUT_OF_MEMORY) ∧
    (e ∈ header_error_kinds ↔ e ≠ SCHLUSSEL_OK) := by decide

/-- C7: a device-flow run never surfaces AUTHORIZATION_PENDING or
SLOW_DOWN: neither the returned result nor the last-error slot ever
carries one of the two internal kinds. -/
theorem device_internal_kinds_never_surfaced (now : Int)
    (rs : List DevicePollResponse) (i : Nat) :
    (schlussel_authorize_device now i rs).1
      ≠ Except.error SCHLUSSEL_ERROR_AUTHORIZATION_PENDING ∧
    (schlussel_authorize_device now i rs).1
      ≠ Except.error SCHLUSSEL_ERROR_SLOW_DOWN ∧
    (schlussel_authorize_device now i rs).2.map ErrInfo.code
      ≠ some SCHLUSSEL_ERROR_AUTHORIZATION_PENDING ∧
    (schlussel_authorize_device now i rs).2.map ErrInfo.code
      ≠ some SCHLUSSEL_ERROR_SLOW_DOWN := by
  have hp := device_poll_loop_no_internal now rs i
  cases h : (device_poll_loop now i rs).2 with
  | ok t => simp [schlussel_authorize_device, h]
  | error e =>
    rw [h] at hp
    have he1 : e ≠ SCHLUSSEL_ERROR_AUTHORIZATION_PENDING := by
      intro hc
      exact hp.1 (by rw [hc])
    have he2 : e ≠ SCHLUSSEL_ERROR_SLOW_DOWN := by
      intro hc
      exact hp.2 (by rw [hc])
    simp [schlussel_authorize_device, h, he1, he2]

set_option maxRecDepth 40000 in
/-- C8: the PKCE challenge of a verifier is the base64url-without-padding
encoding of the SHA-256 of the verifier's bytes; on the RFC 7636 test
vector the challenge comes out as the published value. -/
theorem challenge_is_b64url_sha256 :
    (∀ v, challenge v = base64url_nopad (sha256 (strBytes v))) ∧
    challenge "dBjftJeZ4CVP-mB92K27uhbUJU1p1r_wW1gFWFOEjXk"
      = "E9Melhoa2OwvFrEMTJguCHaoeK1t8URWbuGJSstw-cM" :=
  ⟨fun _ => rfl, by decide⟩

/-- C9: the per-thread slot holds the `{ code, message }` of the most
recent failure; an explicit clear or the next successful operation
empties it, after which the error code reads 0 and the message NULL. -/
theorem last_error_channel (es : List ThreadEvent) (e : ErrInfo)
    (slot : Option ErrInfo) :
    last_error_after (es ++ [ThreadEvent.op_failure e]) = some e ∧
    schlussel_last_error_code (last_error_after
      (es ++ [ThreadEvent.op_failure e])) = errorCode e.code ∧
    schlussel_last_error_message (last_error_after
      (es ++ [ThreadEvent.op_failure e])) = some e.message ∧
    last_error_after (es ++ [ThreadEvent.clear_last_error]) = none ∧
    schlussel_last_error_code (last_error_after
      (es ++ [ThreadEvent.clear_last_error])) = 0 ∧
    schlussel_last_error_message (last_error_after
      (es ++ [ThreadEvent.clear_last_error])) = none ∧
    last_error_after (es ++ [ThreadEvent.op_success]) = none ∧
    schlussel_last_error_code (last_error_after
      (es ++ [ThreadEvent.op_success])) = 0 ∧
    schlussel_last_error_message (last_error_after
      (es ++ [ThreadEvent.op_success])) = none ∧
    schlussel_clear_last_error slot = none ∧
    schlussel_last_error_code (schlussel_clear_last_error slot) = 0 ∧
    schlussel_last_error_message (schlussel_clear_last_error slot) = none := by
  simp [last_error_after, List.foldl_append, last_error_step,
    schlussel_last_error_code, schlussel_last_error_message,
    schlussel_clear_last_error]

/-- C10: each public destructor is a no-op on a NULL handle — the heap of
live handles is untouched and no failure occurs. -/
theorem destructors_null_noop (h : Heap) :
    schlussel_client_free h none = h ∧
    schlussel_token_free h none = h ∧
    schlussel_string_free h none = h ∧
    schlussel_registration_free h none = h ∧
    schlussel_registration_response_free h none = h :=
  ⟨rfl, rfl, rfl, rfl, rfl⟩
